import Mathlib

/-
  Verification of the projecthub backend (src/server.js): a shallow embedding
  of the data model, the HTTP routes, and the socket.io chat gateway, with
  theorems settling the specification claims about them.
-/

namespace ProjectHub

/-! ## Data model (Mongoose schemas) -/

/-- An entry of the embedded chat array of a task
    (taskSchema.chat: userId, message, timestamp, emoji). -/
structure Msg where
  userId : String
  message : String
  timestamp : Nat
  emoji : Option String
deriving DecidableEq

/-- A task document (taskSchema). Fields not touched by any claim
    (dueDate, participants, location, files, createdAt) are omitted. -/
structure Task where
  id : String
  name : String
  description : String
  projectId : String
  status : String
  priority : String
  chat : List Msg
  notes : String
deriving DecidableEq

/-- The bcrypt hash stored in the password field: bcrypt embeds the salt in
    the hash and comparison re-hashes the candidate with that salt. The
    digest function is a concrete stand-in for the one-way function. -/
structure BcryptHash where
  salt : Nat
  digest : String
deriving DecidableEq

/-- Model of bcrypt.hash(password, rounds) at a given salt. -/
def bcryptHash (password : String) (salt : Nat) : BcryptHash :=
  { salt := salt, digest := password ++ "#" ++ toString salt }

/-- Model of bcrypt.compare(password, hash): recompute with the embedded
    salt and compare digests. -/
def bcryptCompare (password : String) (h : BcryptHash) : Bool :=
  h.digest = password ++ "#" ++ toString h.salt

/-- A user document (userSchema). The password field holds the bcrypt hash. -/
structure User where
  id : String
  name : String
  email : String
  password : BcryptHash
  role : String
deriving DecidableEq

/-- A project document (projectSchema); fields no claim touches are omitted. -/
structure Project where
  id : String
  name : String
  description : String
  teamId : String
  createdBy : String
deriving DecidableEq

/-- The document store: the three collections the claims touch. -/
structure DB where
  users : List User
  projects : List Project
  tasks : List Task
deriving DecidableEq

/-! ## JWT model (jsonwebtoken sign/verify with a shared secret) -/

/-- The payload the server signs: jwt.sign with id and a 1-day expiry. -/
structure JwtPayload where
  id : String
  exp : Nat
deriving DecidableEq

/-- Concrete stand-in for the HMAC signature over payload and secret. -/
def jwtSignature (secret : Nat) (p : JwtPayload) : Nat :=
  (p.id.length + 1) * 1000003 + p.exp * 31 + secret * 65537

/-- A token as presented by a client: either not a JWT at all, or a payload
    with a claimed signature (possibly tampered). -/
inductive RawToken where
  | malformed : RawToken
  | signed : JwtPayload → Nat → RawToken
deriving DecidableEq

/-- jwt.sign(payload, secret). -/
def jwtSign (secret : Nat) (p : JwtPayload) : RawToken :=
  .signed p (jwtSignature secret p)

/-- jwt.verify(token, secret) at current time now: checks the signature and
    the expiry, failing closed (none) on malformed, tampered or expired. -/
def jwtVerify (secret : Nat) (now : Nat) : RawToken → Option JwtPayload
  | .malformed => none
  | .signed p sig => if sig = jwtSignature secret p ∧ now < p.exp then some p else none

/-! ## HTTP responses -/

/-- The JSON bodies the server sends with res.json. authPayload is the
    token-and-user object of register and login; the user is the full
    stored document. -/
inductive ResponseBody where
  | msg : String → ResponseBody
  | authPayload : RawToken → User → ResponseBody
  | projectList : List Project → ResponseBody
  | projectBody : Option Project → ResponseBody
  | taskList : List Task → ResponseBody
  | taskBody : Option Task → ResponseBody
deriving DecidableEq

structure HttpResponse where
  status : Nat
  body : ResponseBody
deriving DecidableEq

/-- Whether a response body carries a freshly issued token. -/
def issuesToken : ResponseBody → Bool
  | .authPayload _ _ => true
  | _ => false

/-! ## Auth middleware and auth routes -/

/-- authMiddleware: missing header gives 401 No token; jwt.verify throwing
    gives 401 Token invalido; otherwise the decoded payload is attached to
    the request and the route handler runs. -/
def authMiddleware (secret now : Nat) (authHeader : Option RawToken) :
    Except HttpResponse JwtPayload :=
  match authHeader with
  | none => .error { status := 401, body := .msg "No token" }
  | some t =>
    match jwtVerify secret now t with
    | none => .error { status := 401, body := .msg "Token invalido" }
    | some p => .ok p

/-- POST /api/register: hashes the password, saves the user, signs a 1-day
    token and responds with the token and the stored user document.
    user.save rejects on a duplicate email (unique index); the handler has
    no catch, so that case is modelled as none (the rejection escapes). -/
def postRegister (db : DB) (secret now salt : Nat)
    (newId name email password role : String) :
    Option (HttpResponse × DB) :=
  if db.users.any (·.email = email) then
    none
  else
    let hashed := bcryptHash password salt
    let user : User :=
      { id := newId, name := name, email := email, password := hashed, role := role }
    let db2 : DB := { db with users := db.users ++ [user] }
    let token := jwtSign secret { id := user.id, exp := now + 86400 }
    some ({ status := 200, body := .authPayload token user }, db2)

/-- POST /api/login: looks the user up by email; if absent or the bcrypt
    comparison fails, responds 400 Credenciales invalidas; otherwise signs a
    1-day token and responds with the token and the stored user document. -/
def postLogin (db : DB) (secret now : Nat) (email password : String) :
    HttpResponse :=
  match db.users.find? (·.email = email) with
  | none => { status := 400, body := .msg "Credenciales invalidas" }
  | some user =>
    if bcryptCompare password user.password then
      { status := 200,
        body := .authPayload (jwtSign secret { id := user.id, exp := now + 86400 }) user }
    else
      { status := 400, body := .msg "Credenciales invalidas" }

/-! ## Protected project routes -/

/-- The request body of POST /api/projects, the fields the schema keeps. -/
structure ProjectBody where
  name : String
  description : String
  teamId : String
deriving DecidableEq

/-- The request body of PUT /api/projects/:id: the fields present in the
    JSON body; absent fields are left unchanged by findByIdAndUpdate. -/
structure ProjectUpdate where
  name : Option String
  description : Option String
  teamId : Option String
deriving DecidableEq

def applyProjectUpdate (p : Project) (u : ProjectUpdate) : Project :=
  { p with
    name := u.name.getD p.name,
    description := u.description.getD p.description,
    teamId := u.teamId.getD p.teamId }

/-- GET /api/projects: Project.find filtered by the teamId query value. -/
def getProjectsRoute (secret now : Nat) (db : DB) (hdr : Option RawToken)
    (teamId : String) : HttpResponse × DB :=
  match authMiddleware secret now hdr with
  | .error r => (r, db)
  | .ok _ =>
    ({ status := 200, body := .projectList (db.projects.filter (·.teamId = teamId)) }, db)

/-- POST /api/projects: new Project from the body with createdBy from the
    decoded token, then save. -/
def postProjectsRoute (secret now : Nat) (db : DB) (hdr : Option RawToken)
    (newId : String) (b : ProjectBody) : HttpResponse × DB :=
  match authMiddleware secret now hdr with
  | .error r => (r, db)
  | .ok u =>
    let p : Project :=
      { id := newId, name := b.name, description := b.description,
        teamId := b.teamId, createdBy := u.id }
    ({ status := 200, body := .projectBody (some p) },
     { db with projects := db.projects ++ [p] })

/-- Project.findByIdAndUpdate(id, body, new true): applies the body fields
    to the matched document and returns the updated document, or none. -/
def findByIdAndUpdateProject (db : DB) (id : String) (u : ProjectUpdate) :
    DB × Option Project :=
  match db.projects.find? (·.id = id) with
  | none => (db, none)
  | some p =>
    let p2 := applyProjectUpdate p u
    ({ db with projects := db.projects.map (fun x => if x.id = id then p2 else x) },
     some p2)

/-- PUT /api/projects/:id. -/
def putProjectRoute (secret now : Nat) (db : DB) (hdr : Option RawToken)
    (id : String) (u : ProjectUpdate) : HttpResponse × DB :=
  match authMiddleware secret now hdr with
  | .error r => (r, db)
  | .ok _ =>
    let r := findByIdAndUpdateProject db id u
    ({ status := 200, body := .projectBody r.2 }, r.1)

/-- DELETE /api/projects/:id. -/
def deleteProjectRoute (secret now : Nat) (db : DB) (hdr : Option RawToken)
    (id : String) : HttpResponse × DB :=
  match authMiddleware secret now hdr with
  | .error r => (r, db)
  | .ok _ =>
    ({ status := 200, body := .msg "Proyecto eliminado" },
     { db with projects := db.projects.filter (·.id ≠ id) })

/-! ## Protected task routes -/

/-- The request body of POST /api/tasks: the schema fields a client sends.
    The createdBy the handler adds is not in taskSchema, so the schema
    drops it. -/
structure TaskBody where
  name : String
  description : String
  projectId : String
  status : String
  priority : String
  notes : String
deriving DecidableEq

/-- The request body of PUT /api/tasks/:id; findByIdAndUpdate applies every
    field present, including a chat field when the client sends one. -/
structure TaskUpdate where
  name : Option String
  description : Option String
  projectId : Option String
  status : Option String
  priority : Option String
  chat : Option (List Msg)
  notes : Option String
deriving DecidableEq

def applyTaskUpdate (t : Task) (u : TaskUpdate) : Task :=
  { t with
    name := u.name.getD t.name,
    description := u.description.getD t.description,
    projectId := u.projectId.getD t.projectId,
    status := u.status.getD t.status,
    priority := u.priority.getD t.priority,
    chat := u.chat.getD t.chat,
    notes := u.notes.getD t.notes }

/-- Task.findById. -/
def Task.findById (db : DB) (taskId : String) : Option Task :=
  db.tasks.find? (·.id = taskId)

/-- GET /api/tasks: the filter uses projectId when given; a teamId query
    sets the path projectId.teamId, which no task document has (projectId
    is a plain reference), so that filter matches nothing. -/
def getTasksRoute (secret now : Nat) (db : DB) (hdr : Option RawToken)
    (projectId teamId : Option String) : HttpResponse × DB :=
  match authMiddleware secret now hdr with
  | .error r => (r, db)
  | .ok _ =>
    let base :=
      match projectId with
      | some p => db.tasks.filter (·.projectId = p)
      | none => db.tasks
    let result :=
      match teamId with
      | some _ => ([] : List Task)
      | none => base
    ({ status := 200, body := .taskList result }, db)

/-- POST /api/tasks: new Task from the body, then save. -/
def postTasksRoute (secret now : Nat) (db : DB) (hdr : Option RawToken)
    (newId : String) (b : TaskBody) : HttpResponse × DB :=
  match authMiddleware secret now hdr with
  | .error r => (r, db)
  | .ok _ =>
    let t : Task :=
      { id := newId, name := b.name, description := b.description,
        projectId := b.projectId, status := b.status, priority := b.priority,
        chat := [], notes := b.notes }
    ({ status := 200, body := .taskBody (some t) },
     { db with tasks := db.tasks ++ [t] })

/-- Task.findByIdAndUpdate(id, body, new true). -/
def findByIdAndUpdateTask (db : DB) (id : String) (u : TaskUpdate) :
    DB × Option Task :=
  match Task.findById db id with
  | none => (db, none)
  | some t =>
    let t2 := applyTaskUpdate t u
    ({ db with tasks := db.tasks.map (fun x => if x.id = id then t2 else x) },
     some t2)

/-- PUT /api/tasks/:id. -/
def putTaskRoute (secret now : Nat) (db : DB) (hdr : Option RawToken)
    (id : String) (u : TaskUpdate) : HttpResponse × DB :=
  match authMiddleware secret now hdr with
  | .error r => (r, db)
  | .ok _ =>
    let r := findByIdAndUpdateTask db id u
    ({ status := 200, body := .taskBody r.2 }, r.1)

/-- DELETE /api/tasks/:id. -/
def deleteTaskRoute (secret now : Nat) (db : DB) (hdr : Option RawToken)
    (id : String) : HttpResponse × DB :=
  match authMiddleware secret now hdr with
  | .error r => (r, db)
  | .ok _ =>
    ({ status := 200, body := .msg "Tarea eliminada" },
     { db with tasks := db.tasks.filter (·.id ≠ id) })

/-! ## Socket.io chat gateway -/

/-- Errors a handler body can raise. typeError is a property access on null
    (task.chat when Task.findById gave null); storageFailure is task.save
    rejecting; notFound is the 404-equivalent outcome, listed so the claims
    about it can be stated — no gateway code path produces it. -/
inductive JsError where
  | typeError : JsError
  | storageFailure : JsError
  | notFound : JsError
deriving DecidableEq

/-- The per-connection state the gateway keeps: the client-supplied
    handshake query userId the sendMessage handler reads, the token that
    may have been presented at handshake (no server code reads it), and
    the set of rooms entered via socket.join. -/
structure SocketState where
  handshakeQueryUserId : String
  handshakeAuth : Option RawToken
  rooms : List String
deriving DecidableEq

/-- One io.to(room).emit(event, payload) call. -/
structure Broadcast where
  room : String
  event : String
  payload : Msg
deriving DecidableEq

/-- The joinTask handler: socket.join(taskId). Joining a room already
    joined is a no-op. -/
def handleJoinTask (s : SocketState) (taskId : String) : SocketState :=
  { s with rooms := if taskId ∈ s.rooms then s.rooms else s.rooms ++ [taskId] }

/-- task.save() writing the (mutated) document back to its collection. -/
def saveTaskDoc (db : DB) (t : Task) : DB :=
  { db with tasks := db.tasks.map (fun x => if x.id = t.id then t else x) }

/-- What running the sendMessage handler leaves behind: the store, the
    emitted broadcasts, and the error that escaped the handler if one did
    (the handler has no try/catch, so an error propagates as an unhandled
    rejection). -/
structure SendOutcome where
  db : DB
  emits : List Broadcast
  thrown : Option JsError
deriving DecidableEq

/-- The sendMessage handler: Task.findById; build newMsg from
    socket.handshake.query.userId, the payload, and a server-side
    timestamp; task.chat.push; await task.save(); io.to(taskId).emit.
    A null task makes task.chat.push throw; saveOk is whether the save
    promise resolves; when it rejects, the emit line is never reached. -/
def handleSendMessage (db : DB) (sock : SocketState) (taskId message : String)
    (emoji : Option String) (now : Nat) (saveOk : Bool) : SendOutcome :=
  match Task.findById db taskId with
  | none => { db := db, emits := [], thrown := some .typeError }
  | some task =>
    let newMsg : Msg :=
      { userId := sock.handshakeQueryUserId, message := message,
        timestamp := now, emoji := emoji }
    let task2 := { task with chat := task.chat ++ [newMsg] }
    if saveOk then
      { db := saveTaskDoc db task2,
        emits := [{ room := taskId, event := "newMessage", payload := newMsg }],
        thrown := none }
    else
      { db := db, emits := [], thrown := some .storageFailure }

/-- The client-to-server events the connection handler registers. -/
inductive ClientEvent where
  | joinTask : String → ClientEvent
  | sendMessage : String → String → Option String → ClientEvent
deriving DecidableEq

structure EventOutcome where
  db : DB
  sock : SocketState
  emits : List Broadcast
  thrown : Option JsError
deriving DecidableEq

/-- One event arriving on a live connection. The connection handler
    registers joinTask and sendMessage for every accepted socket — it
    performs no token validation at the handshake and never closes the
    socket — so every event is dispatched to its handler unconditionally. -/
def processEvent (db : DB) (sock : SocketState) (ev : ClientEvent)
    (now : Nat) (saveOk : Bool) : EventOutcome :=
  match ev with
  | .joinTask taskId =>
    { db := db, sock := handleJoinTask sock taskId, emits := [], thrown := none }
  | .sendMessage taskId message emoji =>
    let r := handleSendMessage db sock taskId message emoji now saveOk
    { db := r.db, sock := sock, emits := r.emits, thrown := r.thrown }

/-- The chat history of a task: the embedded chat array in append order. -/
def history (db : DB) (taskId : String) : Option (List Msg) :=
  (Task.findById db taskId).map (·.chat)

/-! ## Concrete fixtures used by the theorems below -/

def demoTask : Task :=
  { id := "t1", name := "demo", description := "", projectId := "p1",
    status := "pending", priority := "medium", chat := [], notes := "" }

def demoDB : DB := { users := [], projects := [], tasks := [demoTask] }

def aliceHash : BcryptHash := bcryptHash "pw1" 7

def alice : User :=
  { id := "u1", name := "Alice", email := "a@x.com", password := aliceHash, role := "dev" }

def dbUsers : DB := { users := [alice], projects := [], tasks := [] }

def msg1 : Msg := { userId := "u1", message := "hi", timestamp := 3, emoji := none }

def taskWithChat : Task :=
  { id := "t2", name := "chatty", description := "", projectId := "p1",
    status := "pending", priority := "medium", chat := [msg1], notes := "" }

def dbChat : DB := { users := [alice], projects := [], tasks := [taskWithChat] }

def goodToken : RawToken := jwtSign 42 { id := "u1", exp := 100 }

def wipeChatUpdate : TaskUpdate :=
  { name := none, description := none, projectId := none, status := none,
    priority := none, chat := some [], notes := none }

/-! ## Helper lemmas -/

/-- Replacing, in a list of tasks, every element whose id is tid by a task
    t2 with that id moves find? by id from its previous hit to t2. -/
theorem find?_id_replace (l : List Task) (tid : String) (t t2 : Task)
    (h : l.find? (fun x => x.id = tid) = some t) (h2 : t2.id = tid) :
    (l.map (fun x => if x.id = tid then t2 else x)).find? (fun x => x.id = tid) =
      some t2 := by
  induction l with
  | nil => simp at h
  | cons a l ih =>
    by_cases ha : a.id = tid
    · simp [List.find?, ha, h2]
    · rw [List.find?_cons_of_neg] at h
      · simpa [List.find?, ha] using ih h
      · simp [ha]

/-- After a successful sendMessage on an existing task, the history of that
    task is the previous chat with the new message appended. -/
theorem history_after_send (db : DB) (sock : SocketState) (taskId message : String)
    (emoji : Option String) (now : Nat) (task : Task)
    (h : Task.findById db taskId = some task) :
    history (handleSendMessage db sock taskId message emoji now true).db taskId =
      some (task.chat ++
        [{ userId := sock.handshakeQueryUserId, message := message,
           timestamp := now, emoji := emoji }]) := by
  have hid : task.id = taskId := by
    have := List.find?_some h
    simpa using this
  have hrep :=
    find?_id_replace db.tasks taskId task
      { task with chat := task.chat ++ [{ userId := sock.handshakeQueryUserId, message := message, timestamp := now, emoji := emoji }] }
      h hid
  unfold handleSendMessage
  rw [h]
  simp only [if_true]
  unfold history Task.findById saveTaskDoc
  simp only [hid] at hrep ⊢
  rw [hrep]
  rfl

/-- With a missing or unverifiable Authorization token, authMiddleware
    short-circuits with a 401 response. -/
theorem authMiddleware_bind_none (secret now : Nat) (hdr : Option RawToken)
    (h : hdr.bind (jwtVerify secret now) = none) :
    ∃ r, authMiddleware secret now hdr = .error r ∧ r.status = 401 := by
  cases hdr with
  | none => exact ⟨_, rfl, rfl⟩
  | some t =>
    simp at h
    exact ⟨{ status := 401, body := .msg "Token invalido" },
      by simp [authMiddleware, h], rfl⟩

/-! ## Claim theorems -/

/-- Claim C1 (refuting evidence): the connection handler registers the
    joinTask and sendMessage handlers for every socket without validating
    any handshake token and without closing the connection, so a connection
    that presents no token at all has its sendMessage processed: the
    message is broadcast and persisted into history, and a connection with
    a malformed token raises no error either. The claim says such a
    connection is closed at handshake and none of its events are
    processed. -/
theorem c1_unvalidated_connection_events_processed :
    (processEvent demoDB { handshakeQueryUserId := "mallory", handshakeAuth := none, rooms := [] } (.sendMessage "t1" "hi" none) 5 true).emits =
      [{ room := "t1", event := "newMessage", payload := { userId := "mallory", message := "hi", timestamp := 5, emoji := none } }] ∧
    history (processEvent demoDB { handshakeQueryUserId := "mallory", handshakeAuth := none, rooms := [] } (.sendMessage "t1" "hi" none) 5 true).db "t1" =
      some [{ userId := "mallory", message := "hi", timestamp := 5, emoji := none }] ∧
    (processEvent demoDB { handshakeQueryUserId := "mallory", handshakeAuth := some .malformed, rooms := [] } (.joinTask "t1") 6 true).sock.rooms = ["t1"] := by
  decide

/-- Claim C2 (refuting evidence): even when the handshake carries a token
    that validates to user u1, the sendMessage handler stores and
    broadcasts socket.handshake.query.userId — here the client-chosen
    string mallory — as the message sender, refuting the claim that the
    sender always equals the identity embedded in the validated token. -/
theorem c2_sender_taken_from_handshake_query :
    jwtVerify 42 5 goodToken = some { id := "u1", exp := 100 } ∧
    (handleSendMessage dbChat { handshakeQueryUserId := "mallory", handshakeAuth := some goodToken, rooms := ["t2"] } "t2" "yo" none 9 true).emits =
      [{ room := "t2", event := "newMessage", payload := { userId := "mallory", message := "yo", timestamp := 9, emoji := none } }] ∧
    history (handleSendMessage dbChat { handshakeQueryUserId := "mallory", handshakeAuth := some goodToken, rooms := ["t2"] } "t2" "yo" none 9 true).db "t2" =
      some [msg1, { userId := "mallory", message := "yo", timestamp := 9, emoji := none }] := by
  decide

/-- Claim C3 (refuting evidence): a socket whose room set is empty — it
    never emitted joinTask — sends into task t1, and the handler appends
    the message to the chat anyway: it appears in history, refuting the
    claim that a send into a never-joined room is rejected or ignored. -/
theorem c3_send_without_join_is_persisted :
    ({ handshakeQueryUserId := "u1", handshakeAuth := none, rooms := [] } : SocketState).rooms = [] ∧
    history (handleSendMessage demoDB { handshakeQueryUserId := "u1", handshakeAuth := none, rooms := [] } "t1" "hello" none 7 true).db "t1" =
      some [{ userId := "u1", message := "hello", timestamp := 7, emoji := none }] := by
  decide

/-- Claim C4 counterexample: on a taskId resolving to no task, the
    sendMessage handler fails with a type error (the push on a null task),
    not with the NotFound outcome the claim states. -/
theorem c4_counterexample_missing_task_type_error :
    (handleSendMessage demoDB { handshakeQueryUserId := "u1", handshakeAuth := none, rooms := [] } "missing" "hi" none 5 true).thrown = some JsError.typeError ∧
    (handleSendMessage demoDB { handshakeQueryUserId := "u1", handshakeAuth := none, rooms := [] } "missing" "hi" none 5 true).thrown ≠ some JsError.notFound := by
  decide

/-- Claim C4 (amended): for every taskId that does not resolve to an
    existing task, sendMessage fails by throwing a type error — not a
    handled NotFound — and performs no append and no broadcast: the store
    is unchanged and no newMessage is emitted. -/
theorem c4_missing_task_no_append_no_broadcast (db : DB) (sock : SocketState)
    (taskId message : String) (emoji : Option String) (now : Nat) (saveOk : Bool)
    (h : Task.findById db taskId = none) :
    handleSendMessage db sock taskId message emoji now saveOk =
      { db := db, emits := [], thrown := some .typeError } := by
  unfold handleSendMessage
  rw [h]

/-- Witness for the amended C4 at a concrete missing taskId. -/
theorem c4_missing_task_witness :
    handleSendMessage demoDB { handshakeQueryUserId := "u1", handshakeAuth := none, rooms := [] } "nope" "hi" none 5 true =
      { db := demoDB, emits := [], thrown := some .typeError } :=
  c4_missing_task_no_append_no_broadcast demoDB
    { handshakeQueryUserId := "u1", handshakeAuth := none, rooms := [] }
    "nope" "hi" none 5 true (by decide)

/-- Claim C5 counterexample: PUT /api/tasks/:id applies the whole request
    body through findByIdAndUpdate, so an authorized update whose body
    carries a chat field replaces the ChatLog: task t2 had one entry and
    afterwards has none — an entry was removed after insertion, refuting
    the append-only claim. -/
theorem c5_counterexample_put_replaces_chatlog :
    history dbChat "t2" = some [msg1] ∧
    history (putTaskRoute 42 5 dbChat (some goodToken) "t2" wipeChatUpdate).2 "t2" =
      some [] := by
  decide

/-- Claim C5 (amended): the ChatLog is append-only under the chat gateway —
    a successful sendMessage leaves history equal to the previous chat plus
    the new message — and a PUT /api/tasks/:id whose body carries no chat
    field leaves the ChatLog unchanged; but a PUT body may carry a chat
    field, and findByIdAndUpdate then replaces the ChatLog with it. -/
theorem c5_chatlog_append_only_amended :
    (∀ (db : DB) (sock : SocketState) (taskId message : String)
        (emoji : Option String) (now : Nat) (task : Task),
      Task.findById db taskId = some task →
      history (handleSendMessage db sock taskId message emoji now true).db taskId =
        some (task.chat ++ [{ userId := sock.handshakeQueryUserId, message := message, timestamp := now, emoji := emoji }])) ∧
    (∀ (db : DB) (id : String) (u : TaskUpdate) (task : Task),
      u.chat = none →
      Task.findById db id = some task →
      history (findByIdAndUpdateTask db id u).1 id = some task.chat) := by
  constructor
  · intro db sock taskId message emoji now task h
    exact history_after_send db sock taskId message emoji now task h
  · intro db id u task hu h
    have hid : task.id = id := by
      have := List.find?_some h
      simpa using this
    have hch : (applyTaskUpdate task u).chat = task.chat := by
      simp [applyTaskUpdate, hu]
    have h2 : (applyTaskUpdate task u).id = id := hid
    have hrep := find?_id_replace db.tasks id task (applyTaskUpdate task u) h h2
    unfold findByIdAndUpdateTask
    rw [h]
    unfold history Task.findById
    rw [hrep]
    simp [hch]

/-- Witness for the amended C5: a send appends, and a chat-free update
    preserves history, at concrete inputs. -/
theorem c5_chatlog_append_only_witness :
    history (handleSendMessage dbChat { handshakeQueryUserId := "u1", handshakeAuth := none, rooms := ["t2"] } "t2" "more" none 11 true).db "t2" =
      some (taskWithChat.chat ++ [{ userId := "u1", message := "more", timestamp := 11, emoji := none }]) ∧
    history (findByIdAndUpdateTask dbChat "t2" { name := some "renamed", description := none, projectId := none, status := none, priority := none, chat := none, notes := none }).1 "t2" =
      some taskWithChat.chat :=
  ⟨c5_chatlog_append_only_amended.1 dbChat
      { handshakeQueryUserId := "u1", handshakeAuth := none, rooms := ["t2"] }
      "t2" "more" none 11 taskWithChat (by decide),
   c5_chatlog_append_only_amended.2 dbChat "t2"
      { name := some "renamed", description := none, projectId := none, status := none, priority := none, chat := none, notes := none }
      taskWithChat rfl (by decide)⟩

/-- Claim C6: a sendMessage whose save does not succeed emits no
    newMessage broadcast; and whenever a broadcast is emitted, the save
    succeeded and the broadcast message is already appended to the
    persisted history of the task. -/
theorem c6_broadcast_only_after_persist (db : DB) (sock : SocketState)
    (taskId message : String) (emoji : Option String) (now : Nat) (saveOk : Bool) :
    (saveOk = false →
      (handleSendMessage db sock taskId message emoji now saveOk).emits = []) ∧
    ((handleSendMessage db sock taskId message emoji now saveOk).emits ≠ [] →
      saveOk = true ∧
      ∃ task, Task.findById db taskId = some task ∧
        history (handleSendMessage db sock taskId message emoji now saveOk).db taskId =
          some (task.chat ++ [{ userId := sock.handshakeQueryUserId, message := message, timestamp := now, emoji := emoji }])) := by
  constructor
  · intro hs
    subst hs
    unfold handleSendMessage
    cases h : Task.findById db taskId <;> simp
  · intro hne
    cases hs : saveOk with
    | false =>
      subst hs
      exfalso
      apply hne
      unfold handleSendMessage
      cases h : Task.findById db taskId <;> simp
    | true =>
      subst hs
      refine ⟨rfl, ?_⟩
      cases h : Task.findById db taskId with
      | none =>
        exfalso
        apply hne
        unfold handleSendMessage
        rw [h]
      | some task =>
        exact ⟨task, rfl, history_after_send db sock taskId message emoji now task h⟩

/-- Witness for C6: with a failing save no broadcast happens, and with a
    successful save the emitted message sits in history, at concrete
    inputs. -/
theorem c6_broadcast_only_after_persist_witness :
    (handleSendMessage demoDB { handshakeQueryUserId := "u9", handshakeAuth := none, rooms := ["t1"] } "t1" "m" none 4 false).emits = [] ∧
    ∃ task, Task.findById demoDB "t1" = some task ∧
      history (handleSendMessage demoDB { handshakeQueryUserId := "u9", handshakeAuth := none, rooms := ["t1"] } "t1" "m" none 4 true).db "t1" =
        some (task.chat ++ [{ userId := "u9", message := "m", timestamp := 4, emoji := none }]) :=
  ⟨(c6_broadcast_only_after_persist demoDB
      { handshakeQueryUserId := "u9", handshakeAuth := none, rooms := ["t1"] }
      "t1" "m" none 4 false).1 rfl,
   ((c6_broadcast_only_after_persist demoDB
      { handshakeQueryUserId := "u9", handshakeAuth := none, rooms := ["t1"] }
      "t1" "m" none 4 true).2 (by decide)).2⟩

/-- Claim C7 (refuting evidence): the sendMessage handler has no try/catch,
    so a failure inside it — here a send naming a task that does not exist,
    on an empty store — escapes the handler as an uncaught error (an
    unhandled promise rejection) instead of being handled locally to the
    event. -/
theorem c7_failure_escapes_event_handler :
    (processEvent { users := [], projects := [], tasks := [] }
        { handshakeQueryUserId := "u1", handshakeAuth := none, rooms := ["t9"] }
        (.sendMessage "t9" "hi" none) 8 true).thrown = some JsError.typeError := by
  decide

/-- Claim C8 counterexample: login with a wrong password for an existing
    user answers with status 400, not the 401 the claim states. -/
theorem c8_counterexample_login_400_not_401 :
    (postLogin dbUsers 42 5 "a@x.com" "wrong").status = 400 ∧
    (postLogin dbUsers 42 5 "a@x.com" "wrong").status ≠ 401 := by
  decide

/-- Claim C8 (amended): for every login request with bad credentials — no
    user with the given email, or a password that fails the bcrypt
    comparison — the response status is 400 and no token is issued. -/
theorem c8_bad_credentials_400_no_token (db : DB) (secret now : Nat)
    (email password : String)
    (h : ∀ u ∈ db.users, u.email = email → bcryptCompare password u.password = false) :
    (postLogin db secret now email password).status = 400 ∧
    issuesToken (postLogin db secret now email password).body = false := by
  cases hf : db.users.find? (·.email = email) with
  | none =>
    simp [postLogin, hf, issuesToken]
  | some u =>
    have hm := List.mem_of_find?_eq_some hf
    have he : u.email = email := by
      have := List.find?_some hf
      simpa using this
    have hc := h u hm he
    simp [postLogin, hf, hc, issuesToken]

/-- Witness for the amended C8 at a concrete wrong password. -/
theorem c8_bad_credentials_witness :
    (postLogin dbUsers 42 5 "a@x.com" "nope").status = 400 ∧
    issuesToken (postLogin dbUsers 42 5 "a@x.com" "nope").body = false :=
  c8_bad_credentials_400_no_token dbUsers 42 5 "a@x.com" "nope" (by decide)

/-- Claim C9: every project and task endpoint runs behind authMiddleware,
    so a request whose Authorization header is absent or whose token fails
    jwt.verify gets a 401 response and the store is untouched — the
    operation is not performed — on all eight endpoints. -/
theorem c9_protected_endpoints_reject_unauthenticated
    (secret now : Nat) (db : DB) (hdr : Option RawToken)
    (team pid tid newPid newTid : String) (pb : ProjectBody) (pu : ProjectUpdate)
    (tb : TaskBody) (tu : TaskUpdate) (pq tq : Option String)
    (h : hdr.bind (jwtVerify secret now) = none) :
    ((getProjectsRoute secret now db hdr team).1.status = 401 ∧
      (getProjectsRoute secret now db hdr team).2 = db) ∧
    ((postProjectsRoute secret now db hdr newPid pb).1.status = 401 ∧
      (postProjectsRoute secret now db hdr newPid pb).2 = db) ∧
    ((putProjectRoute secret now db hdr pid pu).1.status = 401 ∧
      (putProjectRoute secret now db hdr pid pu).2 = db) ∧
    ((deleteProjectRoute secret now db hdr pid).1.status = 401 ∧
      (deleteProjectRoute secret now db hdr pid).2 = db) ∧
    ((getTasksRoute secret now db hdr pq tq).1.status = 401 ∧
      (getTasksRoute secret now db hdr pq tq).2 = db) ∧
    ((postTasksRoute secret now db hdr newTid tb).1.status = 401 ∧
      (postTasksRoute secret now db hdr newTid tb).2 = db) ∧
    ((putTaskRoute secret now db hdr tid tu).1.status = 401 ∧
      (putTaskRoute secret now db hdr tid tu).2 = db) ∧
    ((deleteTaskRoute secret now db hdr tid).1.status = 401 ∧
      (deleteTaskRoute secret now db hdr tid).2 = db) := by
  obtain ⟨r, hr, hs⟩ := authMiddleware_bind_none secret now hdr h
  refine ⟨⟨?_, ?_⟩, ⟨?_, ?_⟩, ⟨?_, ?_⟩, ⟨?_, ?_⟩, ⟨?_, ?_⟩, ⟨?_, ?_⟩, ⟨?_, ?_⟩, ?_, ?_⟩ <;>
    simp [getProjectsRoute, postProjectsRoute, putProjectRoute, deleteProjectRoute,
      getTasksRoute, postTasksRoute, putTaskRoute, deleteTaskRoute, hr, hs]

/-- Witness for C9: a malformed bearer token against the demo store is
    rejected with 401 on every endpoint, leaving the store unchanged. -/
theorem c9_protected_endpoints_witness :
    ((getProjectsRoute 42 5 dbChat (some .malformed) "tm").1.status = 401 ∧
      (getProjectsRoute 42 5 dbChat (some .malformed) "tm").2 = dbChat) ∧
    ((postProjectsRoute 42 5 dbChat (some .malformed) "p9" { name := "p", description := "", teamId := "tm" }).1.status = 401 ∧
      (postProjectsRoute 42 5 dbChat (some .malformed) "p9" { name := "p", description := "", teamId := "tm" }).2 = dbChat) ∧
    ((putProjectRoute 42 5 dbChat (some .malformed) "p1" { name := none, description := none, teamId := none }).1.status = 401 ∧
      (putProjectRoute 42 5 dbChat (some .malformed) "p1" { name := none, description := none, teamId := none }).2 = dbChat) ∧
    ((deleteProjectRoute 42 5 dbChat (some .malformed) "p1").1.status = 401 ∧
      (deleteProjectRoute 42 5 dbChat (some .malformed) "p1").2 = dbChat) ∧
    ((getTasksRoute 42 5 dbChat (some .malformed) none none).1.status = 401 ∧
      (getTasksRoute 42 5 dbChat (some .malformed) none none).2 = dbChat) ∧
    ((postTasksRoute 42 5 dbChat (some .malformed) "t9" { name := "t", description := "", projectId := "p1", status := "pending", priority := "medium", notes := "" }).1.status = 401 ∧
      (postTasksRoute 42 5 dbChat (some .malformed) "t9" { name := "t", description := "", projectId := "p1", status := "pending", priority := "medium", notes := "" }).2 = dbChat) ∧
    ((putTaskRoute 42 5 dbChat (some .malformed) "t2" wipeChatUpdate).1.status = 401 ∧
      (putTaskRoute 42 5 dbChat (some .malformed) "t2" wipeChatUpdate).2 = dbChat) ∧
    ((deleteTaskRoute 42 5 dbChat (some .malformed) "t2").1.status = 401 ∧
      (deleteTaskRoute 42 5 dbChat (some .malformed) "t2").2 = dbChat) :=
  c9_protected_endpoints_reject_unauthenticated 42 5 dbChat (some .malformed)
    "tm" "p1" "t2" "p9" "t9"
    { name := "p", description := "", teamId := "tm" }
    { name := none, description := none, teamId := none }
    { name := "t", description := "", projectId := "p1", status := "pending", priority := "medium", notes := "" }
    wipeChatUpdate none none rfl

/-- Claim C10: a successful register responds with the freshly stored user
    document itself — its password field holding the bcrypt hash — and a
    successful login responds with the stored user document found by
    email, password hash included: neither is a redacted projection. -/
theorem c10_auth_responses_expose_password_hash :
    (∀ (db : DB) (secret now salt : Nat) (newId name email password role : String),
      db.users.any (·.email = email) = false →
      ∃ u : User,
        postRegister db secret now salt newId name email password role =
          some ({ status := 200, body := .authPayload (jwtSign secret { id := newId, exp := now + 86400 }) u },
                { db with users := db.users ++ [u] }) ∧
        u.password = bcryptHash password salt) ∧
    (∀ (db : DB) (secret now : Nat) (email password : String) (u : User),
      db.users.find? (·.email = email) = some u →
      bcryptCompare password u.password = true →
      postLogin db secret now email password =
        { status := 200, body := .authPayload (jwtSign secret { id := u.id, exp := now + 86400 }) u }) := by
  constructor
  · intro db secret now salt newId name email password role hfresh
    refine ⟨{ id := newId, name := name, email := email, password := bcryptHash password salt, role := role }, ?_, rfl⟩
    simp [postRegister, hfresh]
  · intro db secret now email password u hf hc
    simp [postLogin, hf, hc]

/-- Witness for C10: register on an empty store and login as the stored
    alice both answer with the stored document carrying the bcrypt hash. -/
theorem c10_auth_responses_witness :
    (∃ u : User,
      postRegister { users := [], projects := [], tasks := [] } 42 5 7 "u1" "Alice" "a@x.com" "pw1" "dev" =
        some ({ status := 200, body := .authPayload (jwtSign 42 { id := "u1", exp := 5 + 86400 }) u },
              { users := [] ++ [u], projects := [], tasks := [] }) ∧
      u.password = bcryptHash "pw1" 7) ∧
    postLogin dbUsers 42 5 "a@x.com" "pw1" =
      { status := 200, body := .authPayload (jwtSign 42 { id := "u1", exp := 5 + 86400 }) alice } :=
  ⟨c10_auth_responses_expose_password_hash.1
      { users := [], projects := [], tasks := [] } 42 5 7 "u1" "Alice" "a@x.com" "pw1" "dev" rfl,
   c10_auth_responses_expose_password_hash.2 dbUsers 42 5 "a@x.com" "pw1" alice (by decide) (by decide)⟩

end ProjectHub
